import Mathlib

/-!
Verification development for the Solar-Demo repository.

Shallow embedding of the interaction state machine
(`src/interaction/InteractionController.js` inside `CameraController.js`),
the camera transition engine (`src/interaction/CameraController.js`),
the adaptive quality loop (`FPSMonitor` / `QualityManager`), and the
perturbation effect (`src/effects/PerturbationEffect.js`).

Numbers are modelled as rationals (the JS sources only perform +, *, /
on them in the modelled fragment), except the focus-distance formula
which uses real trigonometry.  External collaborators (gsap tweens, the
DOM, the renderer, OrbitControls geometry) are modelled by the state they
carry that the claims mention: tween registries, enable flags, distance
bounds, and logs of emitted notifications / delegated calls.
-/

namespace SolarDemo

/-! ## Adaptive quality loop (src/unnamed/part_002: FPSMonitor, QualityManager) -/

/-- Discrete quality level; the JS code uses the strings high / medium / low. -/
inductive Quality where
  | high
  | medium
  | low
deriving DecidableEq

/-- FPSMonitor constructor constant `this.highQualityThreshold = 55`. -/
def highQualityThreshold : ℚ := 55

/-- FPSMonitor constructor constant `this.lowQualityThreshold = 30`. -/
def lowQualityThreshold : ℚ := 30

/-- FPSMonitor constructor constant `this.qualityChangeDelay = 60` (frames). -/
def qualityChangeDelay : Nat := 60

/-- State of `FPSMonitor`.  `samples` holds the per-frame fps values pushed by
`update` (the JS pushes `this.fps = 1000 / frameTime`, not the raw duration). -/
structure FPSMonitor where
  sampleSize : Nat
  samples : List ℚ
  fps : ℚ
  avgFps : ℚ
  frameTime : ℚ
  currentQuality : Quality
  framesSinceQualityChange : Nat
deriving DecidableEq

/-- `new FPSMonitor(sampleSize)` with its constructor defaults. -/
def FPSMonitor.init (sampleSize : Nat) : FPSMonitor :=
  { sampleSize := sampleSize
    samples := []
    fps := 60
    avgFps := 60
    frameTime := 1667 / 100
    currentQuality := Quality.high
    framesSinceQualityChange := 0 }

/-- `FPSMonitor.checkQuality`.  Returns the new monitor state together with
`some q` when the `onQualityChange(q)` callback is invoked, `none` otherwise. -/
def FPSMonitor.checkQuality (m : FPSMonitor) : FPSMonitor × Option Quality :=
  if m.framesSinceQualityChange < qualityChangeDelay then (m, none)
  else
    let newQuality :=
      if highQualityThreshold ≤ m.avgFps ∧ m.currentQuality ≠ Quality.high then
        Quality.high
      else if m.avgFps < lowQualityThreshold ∧ m.currentQuality ≠ Quality.low then
        Quality.low
      else if lowQualityThreshold ≤ m.avgFps ∧ m.avgFps < highQualityThreshold ∧
          m.currentQuality ≠ Quality.medium then
        Quality.medium
      else m.currentQuality
    if newQuality ≠ m.currentQuality then
      ({ m with currentQuality := newQuality, framesSinceQualityChange := 0 },
        some newQuality)
    else (m, none)

/-- `FPSMonitor.update`, with the measured frame duration passed explicitly
(the JS derives it from `performance.now()`).  Pushes `fps = 1000/frameTime`,
evicts the oldest sample when over capacity, recomputes the average of the
stored fps samples, bumps the hysteresis counter and runs `checkQuality`. -/
def FPSMonitor.update (m : FPSMonitor) (frameTime : ℚ) : FPSMonitor × Option Quality :=
  let fps := 1000 / frameTime
  let pushed := m.samples ++ [fps]
  let samples := if m.sampleSize < pushed.length then pushed.tail else pushed
  let avgFps := samples.sum / (samples.length : ℚ)
  FPSMonitor.checkQuality
    { m with
      frameTime := frameTime
      fps := fps
      samples := samples
      avgFps := avgFps
      framesSinceQualityChange := m.framesSinceQualityChange + 1 }

/-- Feed a list of frame durations to the monitor, one `update` per entry. -/
def FPSMonitor.feed (m : FPSMonitor) : List ℚ → FPSMonitor
  | [] => m
  | ft :: rest => FPSMonitor.feed (m.update ft).1 rest

/-- The threshold bucketing stated by the spec: average fps ≥ 55 is High,
average fps < 30 is Low, otherwise Medium.  Stated from the spec's words, to
be compared with what `checkQuality` commits. -/
def fpsBucket (avgFps : ℚ) : Quality :=
  if highQualityThreshold ≤ avgFps then Quality.high
  else if avgFps < lowQualityThreshold then Quality.low
  else Quality.medium

/-- Quality preset record (`QualityManager` constructor's `this.presets`). -/
structure QualityPreset where
  resolutionScale : ℚ
  bloomEnabled : Bool
  bloomStrength : ℚ
  sphereSegments : Nat
deriving DecidableEq

/-- The preset table from the `QualityManager` constructor. -/
def presets : Quality → QualityPreset
  | Quality.high => { resolutionScale := 1, bloomEnabled := true, bloomStrength := 1 / 2, sphereSegments := 128 }
  | Quality.medium => { resolutionScale := 3 / 4, bloomEnabled := true, bloomStrength := 3 / 10, sphereSegments := 64 }
  | Quality.low => { resolutionScale := 1 / 2, bloomEnabled := false, bloomStrength := 0, sphereSegments := 32 }

/-- State of `QualityManager`.  `engineResolutionScale`, `bloomEnabled` and
`bloomStrength` model the external effects of `engine.setQualityScale` and
`postProcessing.setBloomEnabled` / `setBloom`; `appliedLog` records every
`applyQuality` invocation in order. -/
structure QualityManager where
  fpsMonitor : FPSMonitor
  currentPreset : Quality
  autoQuality : Bool
  engineResolutionScale : ℚ
  bloomEnabled : Bool
  bloomStrength : ℚ
  appliedLog : List Quality
deriving DecidableEq

/-- `new QualityManager(...)`: fresh monitor, preset high, auto quality on. -/
def QualityManager.init : QualityManager :=
  { fpsMonitor := FPSMonitor.init 60
    currentPreset := Quality.high
    autoQuality := true
    engineResolutionScale := 1
    bloomEnabled := true
    bloomStrength := 1 / 2
    appliedLog := [] }

/-- `QualityManager.applyQuality`: looks up the preset and applies it.  The
preset lookup always succeeds for the three levels, so the JS early return
`if (!preset) return` never fires here. -/
def QualityManager.applyQuality (qm : QualityManager) (q : Quality) : QualityManager :=
  let p := presets q
  { qm with
    currentPreset := q
    engineResolutionScale := p.resolutionScale
    bloomEnabled := p.bloomEnabled
    bloomStrength := if p.bloomEnabled then p.bloomStrength else qm.bloomStrength
    appliedLog := qm.appliedLog ++ [q] }

/-- `QualityManager.setQuality`: sets `autoQuality = false` and applies the
requested preset.  Note that the JS never touches `fpsMonitor.currentQuality`
here. -/
def QualityManager.setQuality (qm : QualityManager) (q : Quality) : QualityManager :=
  QualityManager.applyQuality { qm with autoQuality := false } q

/-- `QualityManager.enableAutoQuality`. -/
def QualityManager.enableAutoQuality (qm : QualityManager) : QualityManager :=
  { qm with autoQuality := true }

/-- `QualityManager.update`: runs `fpsMonitor.update()`; the constructor wires
`fpsMonitor.onQualityChange = (q) => this.applyQuality(q)`, and neither the
callback nor `update` consults `autoQuality` — faithful to the source. -/
def QualityManager.update (qm : QualityManager) (frameTime : ℚ) : QualityManager :=
  let r := qm.fpsMonitor.update frameTime
  let qm1 := { qm with fpsMonitor := r.1 }
  match r.2 with
  | some q => qm1.applyQuality q
  | none => qm1

/-- Feed a list of frame durations to the manager, one `update` per entry. -/
def QualityManager.feed (qm : QualityManager) : List ℚ → QualityManager
  | [] => qm
  | ft :: rest => QualityManager.feed (qm.update ft) rest

/-! ## Camera transition engine (src/interaction/CameraController.js) -/

/-- A selectable celestial body: a unique name (modelled as a numeric id) and
a radius.  Object identity in JS (`===`) is modelled by equality of ids, which
the data model declares unique per body. -/
structure Body where
  id : Nat
  radius : ℚ
deriving DecidableEq

/-- The two objects gsap tweens are registered against in `CameraController`:
`this.camera.position` and `this.controls.target`. -/
inductive TweenTarget where
  | cameraPosition
  | controlsTarget
deriving DecidableEq

/-- A live gsap tween: what it animates and a ghost tag identifying which
`focusOnBody` / `returnToOverview` call created it. -/
structure Tween where
  target : TweenTarget
  transitionId : Nat
deriving DecidableEq

/-- State of `CameraController`.  `activeTweens` is the registry of live
tweens (`this.activeTweens`; `killAllTweens` both kills every registered tween
and, via `gsap.killTweensOf`, every tween on the two target objects — since
every tween the class creates targets one of those objects and is pushed to
the registry, killing empties it).  `nextTransitionId` is ghost state
numbering the transition-starting calls.  `focusBaseDistance` and the gsap
tween completion callbacks (re-enable controls, restore distance bounds) lie
outside the fragment the claims exercise and are not modelled. -/
structure CameraController where
  isTransitioning : Bool
  focusedBody : Option Nat
  mouseViewEnabled : Bool
  controlsEnabled : Bool
  controlsMinDistance : ℚ
  controlsMaxDistance : ℚ
  activeTweens : List Tween
  nextTransitionId : Nat
deriving DecidableEq

/-- `new CameraController(...)` constructor state. -/
def CameraController.init : CameraController :=
  { isTransitioning := false
    focusedBody := none
    mouseViewEnabled := false
    controlsEnabled := true
    controlsMinDistance := 5
    controlsMaxDistance := 500
    activeTweens := []
    nextTransitionId := 0 }

/-- `CameraController.killAllTweens`: kills every registered tween and every
tween targeting the camera position or the controls target, emptying the
registry of live tweens. -/
def CameraController.killAllTweens (c : CameraController) : CameraController :=
  { c with activeTweens := [] }

/-- `CameraController.focusOnBody(body, duration)`.  Returns the final state
and, as the second component, the micro-trace of the live-tween registry after
each primitive step of the call body (after `killAllTweens`, after the
position tween is pushed, after the target tween is pushed), so that "at no
point" properties can be stated. -/
def CameraController.focusOnBody (c : CameraController) (b : Body) :
    CameraController × List (List Tween) :=
  let c0 := c.killAllTweens
  let n := c0.nextTransitionId
  let c1 := { c0 with
    isTransitioning := true
    focusedBody := some b.id
    mouseViewEnabled := false
    controlsEnabled := false }
  let posTween : Tween := { target := TweenTarget.cameraPosition, transitionId := n }
  let c2 := { c1 with activeTweens := c1.activeTweens ++ [posTween] }
  let targetTween : Tween := { target := TweenTarget.controlsTarget, transitionId := n }
  let c3 := { c2 with
    activeTweens := c2.activeTweens ++ [targetTween]
    nextTransitionId := n + 1 }
  (c3, [c0.activeTweens, c2.activeTweens, c3.activeTweens])

/-- `CameraController.returnToOverview(duration)`, with the same micro-trace
convention as `CameraController.focusOnBody`. -/
def CameraController.returnToOverview (c : CameraController) :
    CameraController × List (List Tween) :=
  let c0 := c.killAllTweens
  let n := c0.nextTransitionId
  let c1 := { c0 with
    isTransitioning := true
    focusedBody := none
    mouseViewEnabled := false
    controlsEnabled := false }
  let posTween : Tween := { target := TweenTarget.cameraPosition, transitionId := n }
  let c2 := { c1 with activeTweens := c1.activeTweens ++ [posTween] }
  let targetTween : Tween := { target := TweenTarget.controlsTarget, transitionId := n }
  let c3 := { c2 with
    activeTweens := c2.activeTweens ++ [targetTween]
    nextTransitionId := n + 1 }
  (c3, [c0.activeTweens, c2.activeTweens, c3.activeTweens])

/-- A transition-starting call on the camera controller. -/
inductive CamCall where
  | focus (b : Body)
  | returnOv
deriving DecidableEq

/-- Run a sequence of transition-starting calls from a state, concatenating
the micro-traces of the live-tween registry. -/
def runCamCalls : CameraController → List CamCall → CameraController × List (List Tween)
  | c, [] => (c, [])
  | c, call :: rest =>
    let step := match call with
      | CamCall.focus b => c.focusOnBody b
      | CamCall.returnOv => c.returnToOverview
    let next := runCamCalls step.1 rest
    (next.1, step.2 ++ next.2)

/-- All live tweens in a registry belong to a single transition. -/
def tweensUniform (l : List Tween) : Prop :=
  ∀ t ∈ l, ∀ t' ∈ l, t.transitionId = t'.transitionId

instance (l : List Tween) : Decidable (tweensUniform l) := by
  unfold tweensUniform; infer_instance

/-! ## Focus distance (CameraController.calculateFocusDistance) -/

/-- `THREE.MathUtils.degToRad`. -/
noncomputable def degToRad (degrees : ℝ) : ℝ := degrees * (Real.pi / 180)

/-- `CameraController.calculateFocusDistance(planetRadius, targetScreenRatio)`
with the camera fov passed explicitly (the JS reads `this.camera.fov`). -/
noncomputable def calculateFocusDistance (fov planetRadius ratio : ℝ) : ℝ :=
  let fovRadians := degToRad fov
  let desiredAngularSize := fovRadians * ratio
  let distance := planetRadius / Real.tan (desiredAngularSize / 2)
  distance * 1.3

/-! ## Interaction state machine (InteractionController) -/

/-- `InteractionState` from the source: GLOBAL (overview), TRANSITION,
FOCUS. -/
inductive InteractionState where
  | GLOBAL
  | TRANSITION
  | FOCUS
deriving DecidableEq

/-- A notification delivered through one of the controller's callbacks
(`onStateChange`, `onBodySelect`, `onBodyHover`). -/
inductive Notification where
  | stateChange (s : InteractionState) (b : Option Nat)
  | bodySelect (b : Nat)
  | bodyHover (b : Option Nat)
deriving DecidableEq

/-- A pending `setTimeout(..., 1200)` scheduled by `focusOnBody` (which
records the body it was started for) or by `returnToGlobal` (unconditional).
All timers share the 1200 ms delay, so they fire in scheduling order. -/
inductive PendingTimer where
  | focusTimer (b : Body)
  | returnTimer
deriving DecidableEq

/-- State of `InteractionController`.  `perturbLog` models each body's
`setPerturbation` state: a call `setPerturbation(enabled, strength)` on body
`i` (Planet.js sets `perturbStrength = enabled ? strength : 0`) prepends
`(i, enabled ? strength : 0)`; the body's current strength is the most recent
entry.  `notifications` logs callback invocations in order. -/
structure InteractionController where
  state : InteractionState
  selectedBody : Option Body
  hoveredBody : Option Body
  mouseVelocity : ℚ × ℚ
  mouseSpeed : ℚ
  cameraController : CameraController
  pendingTimers : List PendingTimer
  notifications : List Notification
  perturbLog : List (Nat × ℚ)
deriving DecidableEq

/-- `new InteractionController(...)` constructor state. -/
def InteractionController.init : InteractionController :=
  { state := InteractionState.GLOBAL
    selectedBody := none
    hoveredBody := none
    mouseVelocity := (0, 0)
    mouseSpeed := 0
    cameraController := CameraController.init
    pendingTimers := []
    notifications := []
    perturbLog := [] }

/-- Current `perturbStrength` of body `bodyId` (0 before any call,
matching Planet.js's unperturbed initial uniform). -/
def InteractionController.perturbStrengthOf (ic : InteractionController) (bodyId : Nat) : ℚ :=
  (ic.perturbLog.lookup bodyId).getD 0

/-- `InteractionController.focusOnBody(body)` for a non-null body: set state
to TRANSITION, record the selection, enable the body's perturbation with
strength 0.15, emit `onStateChange(TRANSITION, body)`, delegate to
`cameraController.focusOnBody(body, 1.2)`, and schedule the 1200 ms
completion timer recording `body`. -/
def InteractionController.focusOnBody (ic : InteractionController) (b : Body) :
    InteractionController :=
  let ic1 := { ic with state := InteractionState.TRANSITION, selectedBody := some b }
  let ic2 := { ic1 with perturbLog := (b.id, (3 : ℚ) / 20) :: ic1.perturbLog }
  let ic3 := { ic2 with
    notifications := ic2.notifications ++
      [Notification.stateChange InteractionState.TRANSITION (some b.id)] }
  let ic4 := { ic3 with cameraController := (ic3.cameraController.focusOnBody b).1 }
  { ic4 with pendingTimers := ic4.pendingTimers ++ [PendingTimer.focusTimer b] }

/-- `InteractionController.focusOnBody(body)` as the JS executes it for a
nullable argument.  The assignments `this.state = TRANSITION` and
`this.selectedBody = body` happen first; with `body = null` the subsequent
read `body.setPerturbation` throws a TypeError, surfaced here as
`Except.error` carrying the state at the throw. -/
def InteractionController.focusOnBodyJS (ic : InteractionController) (b : Option Body) :
    Except InteractionController InteractionController :=
  match b with
  | none => Except.error { ic with state := InteractionState.TRANSITION, selectedBody := none }
  | some body => Except.ok (ic.focusOnBody body)

/-- `InteractionController.returnToGlobal()`: disable the selected body's
perturbation (if any), set state to TRANSITION, emit
`onStateChange(TRANSITION, null)`, delegate to
`cameraController.returnToOverview(1.2)`, and schedule the unconditional
1200 ms completion timer. -/
def InteractionController.returnToGlobal (ic : InteractionController) :
    InteractionController :=
  let ic1 := match ic.selectedBody with
    | some b => { ic with perturbLog := (b.id, (0 : ℚ)) :: ic.perturbLog }
    | none => ic
  let ic2 := { ic1 with state := InteractionState.TRANSITION }
  let ic3 := { ic2 with
    notifications := ic2.notifications ++
      [Notification.stateChange InteractionState.TRANSITION none] }
  let ic4 := { ic3 with cameraController := (ic3.cameraController.returnToOverview).1 }
  { ic4 with pendingTimers := ic4.pendingTimers ++ [PendingTimer.returnTimer] }

/-- Fire the oldest pending timer.  A focus timer commits FOCUS, emits
`onStateChange(FOCUS, body)` and `onBodySelect(body)` only if
`this.selectedBody === body` still holds; a superseded focus timer is a
no-op.  A return timer unconditionally commits GLOBAL, clears the selection
and emits `onStateChange(GLOBAL, null)`. -/
def InteractionController.fireTimer (ic : InteractionController) : InteractionController :=
  match ic.pendingTimers with
  | [] => ic
  | t :: rest =>
    let ic1 := { ic with pendingTimers := rest }
    match t with
    | PendingTimer.focusTimer b =>
      if ic1.selectedBody = some b then
        { ic1 with
          state := InteractionState.FOCUS
          notifications := ic1.notifications ++
            [Notification.stateChange InteractionState.FOCUS (some b.id),
             Notification.bodySelect b.id] }
      else ic1
    | PendingTimer.returnTimer =>
      { ic1 with
        state := InteractionState.GLOBAL
        selectedBody := none
        notifications := ic1.notifications ++
          [Notification.stateChange InteractionState.GLOBAL none] }

/-- The `contextmenu` (right-click) listener from `setupEventListeners`:
`returnToGlobal` only when the state is FOCUS. -/
def InteractionController.onContextMenu (ic : InteractionController) : InteractionController :=
  if ic.state = InteractionState.FOCUS then ic.returnToGlobal else ic

/-- `InteractionController.onKeyDown` for the Escape key: `returnToGlobal`
when the state is FOCUS or TRANSITION. -/
def InteractionController.onKeyDownEscape (ic : InteractionController) : InteractionController :=
  if ic.state = InteractionState.FOCUS ∨ ic.state = InteractionState.TRANSITION then
    ic.returnToGlobal
  else ic

/-- `InteractionController.update(deltaTime)`: one simulation tick of decay —
velocity is scaled by 0.9, speed by 0.75. -/
def InteractionController.update (ic : InteractionController) : InteractionController :=
  { ic with
    mouseVelocity := (ic.mouseVelocity.1 * (9 / 10), ic.mouseVelocity.2 * (9 / 10))
    mouseSpeed := ic.mouseSpeed * (3 / 4) }

/-- Iterate `k` simulation ticks with no intervening pointer events. -/
def InteractionController.updateTicks (ic : InteractionController) : Nat → InteractionController
  | 0 => ic
  | k + 1 => (ic.updateTicks k).update

/-! ## Perturbation effect (src/effects/PerturbationEffect.js) -/

/-- State of `PerturbationEffect`: the stored fields and the shader uniforms
the class mutates (`uPerturbStrength`, `uMousePosition`, `uMouseSpeed`,
`uTime`). -/
structure PerturbationEffect where
  enabled : Bool
  strength : ℚ
  mousePosition : ℚ × ℚ
  mouseSpeed : ℚ
  uPerturbStrength : ℚ
  uMousePosition : ℚ × ℚ
  uMouseSpeed : ℚ
  uTime : ℚ
deriving DecidableEq

/-- `new PerturbationEffect()`: strength 0.02, uniforms initialised from the
stored fields (note `uPerturbStrength` starts at `strength` even though
`enabled` starts false). -/
def PerturbationEffect.init : PerturbationEffect :=
  { enabled := false
    strength := 1 / 50
    mousePosition := (1 / 2, 1 / 2)
    mouseSpeed := 0
    uPerturbStrength := 1 / 50
    uMousePosition := (1 / 2, 1 / 2)
    uMouseSpeed := 0
    uTime := 0 }

/-- `PerturbationEffect.setStrength`. -/
def PerturbationEffect.setStrength (p : PerturbationEffect) (s : ℚ) : PerturbationEffect :=
  { p with strength := s, uPerturbStrength := s }

/-- `PerturbationEffect.setEnabled`: `uPerturbStrength.value = enabled ?
this.strength : 0`; the stored `strength` is untouched. -/
def PerturbationEffect.setEnabled (p : PerturbationEffect) (enabled : Bool) : PerturbationEffect :=
  { p with enabled := enabled, uPerturbStrength := if enabled then p.strength else 0 }

/-! ## Derived properties used in theorem statements -/

/-- The observable return-to-overview sequence the spec describes, started
from `ic` and currently at `r` (after `returnToGlobal` ran, before its timer
fired): the selected body's perturbation is disabled, the state is
TRANSITION, exactly one state-changed notification for TRANSITION was
emitted, the camera controller was delegated `returnToOverview`, and firing
the pending timer commits GLOBAL with the selection cleared and a final
state-changed notification. -/
def returnSequenceFrom (ic r : InteractionController) (b : Body) : Prop :=
  r.perturbStrengthOf b.id = 0 ∧
  r.state = InteractionState.TRANSITION ∧
  r.notifications = ic.notifications ++
    [Notification.stateChange InteractionState.TRANSITION none] ∧
  r.cameraController = (ic.cameraController.returnToOverview).1 ∧
  r.fireTimer.state = InteractionState.GLOBAL ∧
  r.fireTimer.selectedBody = none ∧
  r.fireTimer.notifications = ic.notifications ++
    [Notification.stateChange InteractionState.TRANSITION none,
     Notification.stateChange InteractionState.GLOBAL none]

/-- A monitor with a full window of capacity 2, used to exercise the eviction
behaviour on a concrete input. -/
def mFull : FPSMonitor := { FPSMonitor.init 2 with samples := [40, 50] }

/-- A quality manager whose monitor has run 59 frames of 25 ms (40 fps,
Medium bucket) since the last quality change — the state one frame before
the hysteresis dwell expires. -/
def qmBeforeOverride : QualityManager :=
  { QualityManager.init with
    fpsMonitor := { FPSMonitor.init 60 with
      samples := List.replicate 59 40
      fps := 40
      avgFps := 40
      frameTime := 25
      framesSinceQualityChange := 59 } }

/-- An interaction controller with a concrete positive pointer speed. -/
def icSpeedy : InteractionController := { InteractionController.init with mouseSpeed := 2 }

/-- Two distinct concrete bodies. -/
def bodyA : Body := { id := 0, radius := 1 }

/-- Two distinct concrete bodies. -/
def bodyB : Body := { id := 1, radius := 2 }

/-- A controller focused on `bodyA`. -/
def icFocused : InteractionController :=
  { InteractionController.init with
    state := InteractionState.FOCUS
    selectedBody := some bodyA }

/-- A controller mid-transition with `bodyA` selected. -/
def icTransitioning : InteractionController :=
  { InteractionController.init with
    state := InteractionState.TRANSITION
    selectedBody := some bodyA }



end SolarDemo

namespace SolarDemo

/-! ## Theorems -/

/-- Helper: `checkQuality` never touches the sample window, the average or
the capacity. -/
theorem checkQuality_preserves (m : FPSMonitor) :
    m.checkQuality.1.samples = m.samples ∧ m.checkQuality.1.avgFps = m.avgFps ∧
    m.checkQuality.1.sampleSize = m.sampleSize := by
  simp only [FPSMonitor.checkQuality]
  split_ifs <;> exact ⟨rfl, rfl, rfl⟩

/-- Helper: below the dwell threshold `checkQuality` is the identity and
fires nothing. -/
theorem checkQuality_below_delay (m : FPSMonitor)
    (h : m.framesSinceQualityChange < qualityChangeDelay) :
    m.checkQuality = (m, none) := by
  unfold FPSMonitor.checkQuality
  simp [h]

/-- Helper: at or above the dwell threshold, `checkQuality` commits exactly
the threshold bucket of the current average: the identity when the bucket
already equals the current level, otherwise a change to the bucket with the
dwell counter reset. -/
theorem checkQuality_at_delay (m : FPSMonitor)
    (h : ¬ m.framesSinceQualityChange < qualityChangeDelay) :
    m.checkQuality =
      if fpsBucket m.avgFps = m.currentQuality then (m, none)
      else ({ m with currentQuality := fpsBucket m.avgFps, framesSinceQualityChange := 0 },
        some (fpsBucket m.avgFps)) := by
  unfold FPSMonitor.checkQuality fpsBucket
  by_cases hH : highQualityThreshold ≤ m.avgFps
  · have hL : ¬ m.avgFps < lowQualityThreshold := by
      unfold highQualityThreshold at hH
      unfold lowQualityThreshold
      linarith
    have hM : ¬ m.avgFps < highQualityThreshold := not_lt.mpr hH
    cases hc : m.currentQuality <;> simp [h, hH, hL, hM, hc]
  · by_cases hL : m.avgFps < lowQualityThreshold
    · have h30 : ¬ lowQualityThreshold ≤ m.avgFps := not_le.mpr hL
      cases hc : m.currentQuality <;> simp [h, hH, hL, h30, hc]
    · have h30 : lowQualityThreshold ≤ m.avgFps := not_lt.mp hL
      have h55 : m.avgFps < highQualityThreshold := not_le.mp hH
      cases hc : m.currentQuality <;> simp [h, hH, hL, h30, h55, hc]

/-- Claim C5: on any frame where fewer than 60 frames have elapsed since the
previous quality-level change, no quality-level change fires regardless of
the measured average fps; when a change does fire, the dwell counter resets
to zero and the committed level follows the thresholds (average fps ≥ 55 is
High, average fps < 30 is Low, otherwise Medium). -/
theorem checkQuality_hysteresis_and_thresholds (m : FPSMonitor) :
    (m.framesSinceQualityChange < qualityChangeDelay → m.checkQuality = (m, none)) ∧
    (∀ ft : ℚ, m.framesSinceQualityChange + 1 < qualityChangeDelay →
      (m.update ft).2 = none ∧ (m.update ft).1.currentQuality = m.currentQuality) ∧
    (∀ (m' : FPSMonitor) (q : Quality), m.checkQuality = (m', some q) →
      q = fpsBucket m.avgFps ∧ m'.framesSinceQualityChange = 0 ∧
      m'.currentQuality = q) := by
  refine ⟨checkQuality_below_delay m, ?_, ?_⟩
  · intro ft h
    simp only [FPSMonitor.update]
    rw [checkQuality_below_delay _ h]
    exact ⟨rfl, rfl⟩
  · intro m' q h
    by_cases h0 : m.framesSinceQualityChange < qualityChangeDelay
    · rw [checkQuality_below_delay m h0] at h
      simp at h
    · rw [checkQuality_at_delay m h0] at h
      by_cases hb : fpsBucket m.avgFps = m.currentQuality
      · rw [if_pos hb] at h
        simp at h
      · rw [if_neg hb] at h
        obtain ⟨hm, hq⟩ := Prod.ext_iff.mp h
        have hq' : fpsBucket m.avgFps = q := Option.some.inj hq
        subst hq'
        subst hm
        exact ⟨rfl, rfl, rfl⟩

/-- Witness for C5: a quiescent frame (dwell counter 10 < 60, average 10)
fires no change; a fired change at counter 60, average 40, current level High
commits Medium — the threshold bucket of 40 — with the counter reset. -/
theorem checkQuality_hysteresis_and_thresholds_witness :
    (({ FPSMonitor.init 60 with framesSinceQualityChange := 10, avgFps := 10 } :
        FPSMonitor).checkQuality =
      ({ FPSMonitor.init 60 with framesSinceQualityChange := 10, avgFps := 10 }, none)) ∧
    (Quality.medium =
        fpsBucket ({ FPSMonitor.init 60 with framesSinceQualityChange := 60, avgFps := 40 } :
          FPSMonitor).avgFps ∧
      ({ FPSMonitor.init 60 with
          avgFps := 40
          currentQuality := Quality.medium
          framesSinceQualityChange := 0 } : FPSMonitor).framesSinceQualityChange = 0 ∧
      ({ FPSMonitor.init 60 with
          avgFps := 40
          currentQuality := Quality.medium
          framesSinceQualityChange := 0 } : FPSMonitor).currentQuality = Quality.medium) := by
  constructor
  · exact (checkQuality_hysteresis_and_thresholds _).1 (by decide)
  · exact (checkQuality_hysteresis_and_thresholds
      { FPSMonitor.init 60 with framesSinceQualityChange := 60, avgFps := 40 }).2.2
      { FPSMonitor.init 60 with
        avgFps := 40
        currentQuality := Quality.medium
        framesSinceQualityChange := 0 } Quality.medium
      ((checkQuality_at_delay _ (by decide)).trans (if_neg (by decide)))

/-- Helper: the sample window produced by one `update`. -/
theorem update_samples_eq (m : FPSMonitor) (ft : ℚ) :
    (m.update ft).1.samples =
      if m.sampleSize < (m.samples ++ [1000 / ft]).length
      then (m.samples ++ [1000 / ft]).tail
      else m.samples ++ [1000 / ft] := by
  simp only [FPSMonitor.update]
  rw [(checkQuality_preserves _).1]

/-- Helper: `update` keeps the capacity. -/
theorem update_sampleSize_eq (m : FPSMonitor) (ft : ℚ) :
    (m.update ft).1.sampleSize = m.sampleSize := by
  simp only [FPSMonitor.update]
  rw [(checkQuality_preserves _).2.2]

/-- Helper: the average reported by `update` is the arithmetic mean of the
stored fps samples. -/
theorem update_avgFps_eq (m : FPSMonitor) (ft : ℚ) :
    (m.update ft).1.avgFps =
      (m.update ft).1.samples.sum / ((m.update ft).1.samples.length : ℚ) := by
  simp only [FPSMonitor.update]
  rw [(checkQuality_preserves _).1, (checkQuality_preserves _).2.1]

/-- Helper: below capacity, `update` appends the fps sample `1000/ft`. -/
theorem update_samples_push (m : FPSMonitor) (ft : ℚ) (h : m.samples.length < m.sampleSize) :
    (m.update ft).1.samples = m.samples ++ [1000 / ft] := by
  rw [update_samples_eq]
  have hc : ¬ m.sampleSize < (m.samples ++ [1000 / ft]).length := by
    simp only [List.length_append, List.length_singleton]
    omega
  rw [if_neg hc]

/-- Helper: `update` never grows the window past capacity. -/
theorem update_length_le (m : FPSMonitor) (ft : ℚ) (h : m.samples.length ≤ m.sampleSize) :
    (m.update ft).1.samples.length ≤ m.sampleSize := by
  rw [update_samples_eq]
  split
  · simp only [List.length_tail, List.length_append, List.length_singleton]
    omega
  · next hc =>
      simp only [List.length_append, List.length_singleton] at hc ⊢
      omega

/-- Helper: on a full window, `update` evicts the oldest sample. -/
theorem update_evicts (m : FPSMonitor) (ft : ℚ) (h : m.samples.length = m.sampleSize)
    (hne : m.samples ≠ []) :
    (m.update ft).1.samples = m.samples.tail ++ [1000 / ft] := by
  rw [update_samples_eq]
  have hc : m.sampleSize < (m.samples ++ [1000 / ft]).length := by
    simp only [List.length_append, List.length_singleton]
    omega
  rw [if_pos hc]
  cases hs : m.samples with
  | nil => exact absurd hs hne
  | cons a rest => rfl

/-- Helper: feeding a concatenation feeds the pieces in order. -/
theorem feed_append (m : FPSMonitor) (l1 l2 : List ℚ) :
    m.feed (l1 ++ l2) = (m.feed l1).feed l2 := by
  induction l1 generalizing m with
  | nil => rfl
  | cons a t ih =>
      simp only [List.cons_append, FPSMonitor.feed]
      exact ih (m.update a).1

/-- Helper: feeding `k` identical durations into a window already holding `j`
copies of the corresponding fps sample, with room for all of them, yields
`j + k` copies and keeps the capacity. -/
theorem feed_replicate (d : ℚ) :
    ∀ (k j : Nat) (m : FPSMonitor), m.samples = List.replicate j (1000 / d) →
      j + k ≤ m.sampleSize →
      (m.feed (List.replicate k d)).samples = List.replicate (j + k) (1000 / d) ∧
      (m.feed (List.replicate k d)).sampleSize = m.sampleSize
  | 0, j, m, hs, hk => by
      simp only [List.replicate_zero, FPSMonitor.feed]
      simpa using hs
  | k + 1, j, m, hs, hk => by
      have hlen : m.samples.length < m.sampleSize := by
        rw [hs, List.length_replicate]
        omega
      have hpush : (m.update d).1.samples = List.replicate (j + 1) (1000 / d) := by
        rw [update_samples_push m d hlen, hs, ← List.replicate_succ']
      have hsize : (m.update d).1.sampleSize = m.sampleSize := update_sampleSize_eq m d
      have ih := feed_replicate d k (j + 1) (m.update d).1 hpush (by rw [hsize]; omega)
      simp only [List.replicate_succ, FPSMonitor.feed]
      refine ⟨?_, ?_⟩
      · rw [ih.1]
        congr 1
        omega
      · rw [ih.2, hsize]

/-- Helper: after feeding a nonempty list of durations, the reported average
is the mean of the final window. -/
theorem feed_avg_last (l : List ℚ) :
    ∀ (m : FPSMonitor), l ≠ [] →
      (m.feed l).avgFps = (m.feed l).samples.sum / ((m.feed l).samples.length : ℚ) := by
  induction l with
  | nil => intro m h; exact absurd rfl h
  | cons a t ih =>
      intro m _
      cases ht : t with
      | nil =>
          subst ht
          simp only [FPSMonitor.feed]
          exact update_avgFps_eq m a
      | cons b t2 =>
          subst ht
          simp only [FPSMonitor.feed]
          have hrec := ih (m.update a).1 (List.cons_ne_nil b t2)
          simp only [FPSMonitor.feed] at hrec
          exact hrec

/-- Helper: the average after 60 uniform 16.67 ms frames from a fresh
default monitor. -/
theorem feed60_avg :
    ((FPSMonitor.init 60).feed (List.replicate 60 (1667 / 100))).avgFps = 100000 / 1667 := by
  have h := feed_replicate (1667 / 100) 60 0 (FPSMonitor.init 60)
    (by simp [FPSMonitor.init]) (by simp [FPSMonitor.init])
  have ha := feed_avg_last (List.replicate 60 ((1667 : ℚ) / 100)) (FPSMonitor.init 60) (by simp)
  rw [ha, h.1]
  simp only [List.sum_replicate, List.length_replicate]
  norm_num [nsmul_eq_mul]

/-- Helper: the 61st uniform frame evicts one sample, keeping the window at
60 entries. -/
theorem feed61_length :
    ((FPSMonitor.init 60).feed (List.replicate 61 (1667 / 100))).samples.length = 60 := by
  have h := feed_replicate (1667 / 100) 60 0 (FPSMonitor.init 60)
    (by simp [FPSMonitor.init]) (by simp [FPSMonitor.init])
  have hsize : ((FPSMonitor.init 60).feed (List.replicate 60 (1667 / 100))).sampleSize = 60 := by
    rw [h.2]
    rfl
  have hlen : ((FPSMonitor.init 60).feed (List.replicate 60 (1667 / 100))).samples.length = 60 := by
    rw [h.1]
    simp
  have hne : ((FPSMonitor.init 60).feed (List.replicate 60 (1667 / 100))).samples ≠ [] := by
    rw [h.1]
    simp
  have hrep : List.replicate 61 ((1667 : ℚ) / 100) =
      List.replicate 60 ((1667 : ℚ) / 100) ++ [(1667 : ℚ) / 100] := by
    rw [← List.replicate_succ']
  have hfeed1 : ∀ (mm : FPSMonitor) (x : ℚ), mm.feed [x] = (mm.update x).1 := fun _ _ => rfl
  rw [hrep, feed_append, hfeed1]
  rw [update_evicts _ _ (by rw [hlen, hsize]) hne]
  simp only [List.length_append, List.length_tail, List.length_singleton, hlen]

/-- Claim C6 (counterexample): the reported average fps is not, in general,
the arithmetic mean of the window's frame durations converted to fps.
Feeding durations 10 ms and 20 ms to a fresh monitor reports 75 fps (the mean
of the per-frame fps values 100 and 50), while converting the mean duration
15 ms gives 1000 / 15 ≠ 75. -/
theorem fps_window_duration_mean_refuted :
    ((((FPSMonitor.init 60).update 10).1.update 20).1.avgFps = 75) ∧
    ((1000 : ℚ) / ((10 + 20) / 2) ≠ 75) := by
  constructor
  · have hs1 : ((FPSMonitor.init 60).update 10).1.samples = [100] := by
      rw [update_samples_eq]
      norm_num [FPSMonitor.init]
    have hz1 : ((FPSMonitor.init 60).update 10).1.sampleSize = 60 :=
      update_sampleSize_eq _ _
    have hs2 : (((FPSMonitor.init 60).update 10).1.update 20).1.samples = [100, 50] := by
      rw [update_samples_eq, hs1, hz1]
      norm_num
    rw [update_avgFps_eq, hs2]
    norm_num
  · norm_num

/-- Claim C6 (amended): the monitor keeps a fixed-capacity rolling window of
per-frame fps samples — the sample appended for a frame of duration ft is
the fps value 1000/ft, not the raw duration; the window length never exceeds
sampleSize; a full window evicts the oldest sample; the reported average fps
is the arithmetic mean of the stored fps samples; feeding 60 uniform 16.67 ms
durations to a fresh default monitor yields an average within 0.1 of 60.0;
and a 61st sample keeps the window length at 60. -/
theorem fps_window_amended :
    (∀ (m : FPSMonitor) (ft : ℚ), m.samples.length ≤ m.sampleSize →
      (m.update ft).1.samples.length ≤ m.sampleSize) ∧
    (∀ (m : FPSMonitor) (ft : ℚ), m.samples.length = m.sampleSize → m.samples ≠ [] →
      (m.update ft).1.samples = m.samples.tail ++ [1000 / ft]) ∧
    (∀ (m : FPSMonitor) (ft : ℚ), m.samples.length < m.sampleSize →
      (m.update ft).1.samples = m.samples ++ [1000 / ft]) ∧
    (∀ (m : FPSMonitor) (ft : ℚ),
      (m.update ft).1.avgFps =
        (m.update ft).1.samples.sum / ((m.update ft).1.samples.length : ℚ)) ∧
    |((FPSMonitor.init 60).feed (List.replicate 60 (1667 / 100))).avgFps - 60| < 1 / 10 ∧
    ((FPSMonitor.init 60).feed (List.replicate 61 (1667 / 100))).samples.length = 60 := by
  refine ⟨update_length_le, update_evicts, update_samples_push, update_avgFps_eq, ?_, feed61_length⟩
  rw [feed60_avg, abs_sub_lt_iff]
  constructor <;> norm_num

/-- Witness for C6 (amended): on a concrete full window of capacity 2 holding
fps samples 40 and 50, one more update keeps the length at 2 and evicts the
oldest sample, appending the new fps value 100. -/
theorem fps_window_amended_witness :
    ((mFull.update 10).1.samples.length ≤ mFull.sampleSize) ∧
    ((mFull.update 10).1.samples = mFull.samples.tail ++ [1000 / 10]) := by
  refine ⟨fps_window_amended.1 mFull 10 ?_, fps_window_amended.2.1 mFull 10 ?_ ?_⟩
  · simp [mFull, FPSMonitor.init]
  · simp [mFull, FPSMonitor.init]
  · simp [mFull, FPSMonitor.init]


/-- Claim C2 (refuted by the code): `setQuality` sets `autoQuality = false`,
but no code path ever reads the flag — `update` unconditionally runs the
monitor, whose `onQualityChange` callback unconditionally applies presets.
After `setQuality('low')` on a manager whose monitor has run 59 frames at
40 fps since the last change, a single `update()` with a 25 ms frame still
fires an automatic change and applies the Medium preset. -/
theorem qualityManager_manual_override_violated :
    ((qmBeforeOverride.setQuality Quality.low).update 25).autoQuality = false ∧
    ((qmBeforeOverride.setQuality Quality.low).update 25).currentPreset = Quality.medium ∧
    ((qmBeforeOverride.setQuality Quality.low).update 25).appliedLog =
      [Quality.low, Quality.medium] ∧
    ((qmBeforeOverride.setQuality Quality.low).update 25).engineResolutionScale = 3 / 4 := by
  have hfire : (qmBeforeOverride.fpsMonitor.update 25).2 = some Quality.medium := by
    norm_num [FPSMonitor.update, FPSMonitor.checkQuality, qmBeforeOverride, FPSMonitor.init,
      QualityManager.init, qualityChangeDelay, highQualityThreshold, lowQualityThreshold,
      List.sum_append, List.sum_replicate, nsmul_eq_mul]
    decide
  refine ⟨?_, ?_, ?_, ?_⟩
  all_goals simp only [QualityManager.update, QualityManager.setQuality,
    QualityManager.applyQuality, hfire, presets]
  all_goals simp [qmBeforeOverride, QualityManager.init]


/-- Helper: closed form of the per-tick speed decay. -/
theorem updateTicks_speed (ic : InteractionController) (k : Nat) :
    (ic.updateTicks k).mouseSpeed = ic.mouseSpeed * (3 / 4) ^ k := by
  induction k with
  | zero => simp [InteractionController.updateTicks]
  | succ k ih =>
      simp only [InteractionController.updateTicks, InteractionController.update, ih, pow_succ]
      ring

/-- Helper: closed form of the per-tick velocity decay. -/
theorem updateTicks_velocity (ic : InteractionController) (k : Nat) :
    (ic.updateTicks k).mouseVelocity =
      (ic.mouseVelocity.1 * (9 / 10) ^ k, ic.mouseVelocity.2 * (9 / 10) ^ k) := by
  induction k with
  | zero => simp [InteractionController.updateTicks]
  | succ k ih =>
      simp only [InteractionController.updateTicks, InteractionController.update, ih,
        Prod.mk.injEq, pow_succ]
      constructor <;> ring

/-- Claim C9: each simulation tick multiplies the stored speed by exactly
0.75 and the velocity by exactly 0.9, so after k ticks with no pointer
events the speed equals (hence is at most) s·0.75^k, stays positive, and
decreases strictly at every tick. -/
theorem mouse_speed_decay (ic : InteractionController) (k : Nat) (h : 0 < ic.mouseSpeed) :
    ((ic.updateTicks k).mouseSpeed = ic.mouseSpeed * (3 / 4) ^ k ∧
      (ic.updateTicks k).mouseVelocity =
        (ic.mouseVelocity.1 * (9 / 10) ^ k, ic.mouseVelocity.2 * (9 / 10) ^ k)) ∧
    (ic.updateTicks k).mouseSpeed ≤ ic.mouseSpeed * (3 / 4) ^ k ∧
    (ic.updateTicks (k + 1)).mouseSpeed < (ic.updateTicks k).mouseSpeed ∧
    0 < (ic.updateTicks k).mouseSpeed := by
  have hs := updateTicks_speed ic k
  have hs1 := updateTicks_speed ic (k + 1)
  have hv := updateTicks_velocity ic k
  have hpos : 0 < ic.mouseSpeed * (3 / 4) ^ k :=
    mul_pos h (pow_pos (by norm_num) k)
  refine ⟨⟨hs, hv⟩, le_of_eq hs, ?_, ?_⟩
  · rw [hs, hs1, pow_succ, ← mul_assoc]
    have h34 : (3 / 4 : ℚ) < 1 := by norm_num
    have hlt := mul_lt_mul_of_pos_left h34 hpos
    simpa using hlt
  · rw [hs]
    exact hpos

/-- Witness for C9: the controller with speed 2, after 3 ticks. -/
theorem mouse_speed_decay_witness :
    ((icSpeedy.updateTicks 3).mouseSpeed = icSpeedy.mouseSpeed * (3 / 4) ^ 3 ∧
      (icSpeedy.updateTicks 3).mouseVelocity =
        (icSpeedy.mouseVelocity.1 * (9 / 10) ^ 3, icSpeedy.mouseVelocity.2 * (9 / 10) ^ 3)) ∧
    (icSpeedy.updateTicks 3).mouseSpeed ≤ icSpeedy.mouseSpeed * (3 / 4) ^ 3 ∧
    (icSpeedy.updateTicks (3 + 1)).mouseSpeed < (icSpeedy.updateTicks 3).mouseSpeed ∧
    0 < (icSpeedy.updateTicks 3).mouseSpeed :=
  mouse_speed_decay icSpeedy 3 (by norm_num [icSpeedy, InteractionController.init])

/-- Claim C10: `setEnabled(false)` zeroes the effective strength uniform
while leaving the stored strength untouched; a subsequent `setEnabled(true)`
with no intervening `setStrength` restores the uniform to exactly the stored
strength, so disable-then-enable is the identity on the effective strength
whenever the effective strength agreed with the stored strength to begin
with. -/
theorem perturbation_disable_enable_roundtrip (p : PerturbationEffect) :
    ((p.setEnabled false).uPerturbStrength = 0) ∧
    ((p.setEnabled false).strength = p.strength) ∧
    (((p.setEnabled false).setEnabled true).uPerturbStrength = p.strength) ∧
    (p.uPerturbStrength = p.strength →
      ((p.setEnabled false).setEnabled true).uPerturbStrength = p.uPerturbStrength) := by
  refine ⟨rfl, rfl, rfl, fun h => ?_⟩
  rw [h]
  exact rfl

/-- Witness for C10: the freshly constructed effect (uniform equal to the
stored strength 0.02) after disable-then-enable. -/
theorem perturbation_disable_enable_roundtrip_witness :
    ((PerturbationEffect.init.setEnabled false).setEnabled true).uPerturbStrength =
      PerturbationEffect.init.uPerturbStrength :=
  (perturbation_disable_enable_roundtrip PerturbationEffect.init).2.2.2 rfl

/-- Claim C3 (refuted by the code): `InteractionController.focusOnBody` has
no null guard.  Called with a null body it first assigns
`state = TRANSITION` and `selectedBody = null`, then throws a TypeError
reading `body.setPerturbation`; so the call aborts with the interaction
state already mutated instead of rejecting without mutation.  (The throw
does precede the callbacks, so no notification fires.) -/
theorem focusOnBody_null_mutates :
    (InteractionController.init.focusOnBodyJS none =
      Except.error { InteractionController.init with state := InteractionState.TRANSITION }) ∧
    (({ InteractionController.init with state := InteractionState.TRANSITION } :
      InteractionController) ≠ InteractionController.init) ∧
    (({ InteractionController.init with state := InteractionState.TRANSITION } :
      InteractionController).notifications = InteractionController.init.notifications) := by
  refine ⟨rfl, ?_, rfl⟩
  intro h
  have hstate := congrArg InteractionController.state h
  simp [InteractionController.init] at hstate

/-- Claim C8: the computed focus distance equals
radius / tan(fovRadians · 0.6 / 2) · 1.3 for every radius and fov; the
concrete instance r = 10, fov = 60°, ratio 0.6 agrees with the spec's direct
formula 10 / tan(radians(60·0.6)/2) · 1.3 to within 1e-6 (the two
expressions are in fact equal, so the distance is 0). -/
theorem focus_distance_formula :
    (∀ r fov : ℝ, calculateFocusDistance fov r 0.6 =
      r / Real.tan (degToRad fov * 0.6 / 2) * 1.3) ∧
    |calculateFocusDistance 60 10 0.6 -
      10 / Real.tan (degToRad (60 * 0.6) / 2) * 1.3| < 1e-6 := by
  have hmain : ∀ r fov : ℝ, calculateFocusDistance fov r 0.6 =
      r / Real.tan (degToRad fov * 0.6 / 2) * 1.3 := fun r fov => rfl
  refine ⟨hmain, ?_⟩
  have harg : degToRad (60 * 0.6) = degToRad 60 * 0.6 := by
    unfold degToRad
    ring
  rw [hmain 10 60, harg, sub_self, abs_zero]
  norm_num


/-- Helper: the empty registry is single-owner. -/
theorem tweensUniform_nil : tweensUniform [] := by
  intro t ht
  simp at ht

/-- Helper: a single-tween registry is single-owner. -/
theorem tweensUniform_single (t0 : Tween) : tweensUniform [t0] := by
  intro t ht t' ht'
  simp only [List.mem_singleton] at ht ht'
  rw [ht, ht']

/-- Helper: a position tween and a target tween of the same transition form a
single-owner registry. -/
theorem tweensUniform_pair (n : Nat) :
    tweensUniform [{ target := TweenTarget.cameraPosition, transitionId := n },
      { target := TweenTarget.controlsTarget, transitionId := n }] := by
  intro t ht t' ht'
  simp only [List.mem_cons, List.not_mem_nil, or_false] at ht ht'
  rcases ht with rfl | rfl <;> rcases ht' with rfl | rfl <;> rfl

/-- Helper: every micro-state of a `focusOnBody` call is single-owner. -/
theorem focusOnBody_trace_uniform (c : CameraController) (b : Body) :
    ∀ reg ∈ (c.focusOnBody b).2, tweensUniform reg := by
  intro reg hreg
  simp only [CameraController.focusOnBody, CameraController.killAllTweens, List.nil_append,
    List.mem_cons, List.not_mem_nil, or_false] at hreg
  rcases hreg with rfl | rfl | rfl
  · exact tweensUniform_nil
  · exact tweensUniform_single _
  · exact tweensUniform_pair _

/-- Helper: every micro-state of a `returnToOverview` call is single-owner. -/
theorem returnToOverview_trace_uniform (c : CameraController) :
    ∀ reg ∈ c.returnToOverview.2, tweensUniform reg := by
  intro reg hreg
  simp only [CameraController.returnToOverview, CameraController.killAllTweens, List.nil_append,
    List.mem_cons, List.not_mem_nil, or_false] at hreg
  rcases hreg with rfl | rfl | rfl
  · exact tweensUniform_nil
  · exact tweensUniform_single _
  · exact tweensUniform_pair _

/-- Helper: along any call sequence, every micro-state is single-owner. -/
theorem runCamCalls_trace_uniform (calls : List CamCall) :
    ∀ (c : CameraController), ∀ reg ∈ (runCamCalls c calls).2, tweensUniform reg := by
  induction calls with
  | nil =>
      intro c reg hreg
      simp [runCamCalls] at hreg
  | cons call rest ih =>
      intro c reg hreg
      cases call with
      | focus b =>
          simp only [runCamCalls, List.mem_append] at hreg
          rcases hreg with h | h
          · exact focusOnBody_trace_uniform c b reg h
          · exact ih _ reg h
      | returnOv =>
          simp only [runCamCalls, List.mem_append] at hreg
          rcases hreg with h | h
          · exact returnToOverview_trace_uniform c reg h
          · exact ih _ reg h

/-- Claim C7: every transition-starting call cancels all prior in-flight
position and target tweens before registering its own (the registry is empty
at the first micro-step of every `focusOnBody` / `returnToOverview` call),
and along any sequence of such calls from the constructor state, every
intermediate live-tween registry belongs to a single transition — at no
point are tweens of two different transitions simultaneously active. -/
theorem camera_cancellation_atomic (calls : List CamCall) :
    (∀ reg ∈ (runCamCalls CameraController.init calls).2, tweensUniform reg) ∧
    (∀ (c : CameraController) (b : Body), (c.focusOnBody b).2.head? = some []) ∧
    (∀ c : CameraController, c.returnToOverview.2.head? = some []) := by
  refine ⟨runCamCalls_trace_uniform calls CameraController.init, ?_, ?_⟩
  · intro c b
    rfl
  · intro c
    rfl

/-- Witness for C7: the registry after the second call of a concrete
focus-then-focus sequence — both tweens belong to transition 1. -/
theorem camera_cancellation_atomic_witness :
    tweensUniform [{ target := TweenTarget.cameraPosition, transitionId := 1 },
      { target := TweenTarget.controlsTarget, transitionId := 1 }] :=
  (camera_cancellation_atomic [CamCall.focus bodyA, CamCall.focus bodyB]).1 _ (by decide)

/-- Helper: field values of `InteractionController.focusOnBody`. -/
theorem focusOnBody_fields (ic : InteractionController) (b : Body) :
    (ic.focusOnBody b).state = InteractionState.TRANSITION ∧
    (ic.focusOnBody b).selectedBody = some b ∧
    (ic.focusOnBody b).pendingTimers = ic.pendingTimers ++ [PendingTimer.focusTimer b] ∧
    (ic.focusOnBody b).notifications = ic.notifications ++
      [Notification.stateChange InteractionState.TRANSITION (some b.id)] :=
  ⟨rfl, rfl, rfl, rfl⟩

/-- Helper: firing a timer whose head is a focus timer pops it and commits
FOCUS only when the recorded body is still the selection. -/
theorem fireTimer_focus_cons (ic : InteractionController) (b : Body)
    (rest : List PendingTimer)
    (hpt : ic.pendingTimers = PendingTimer.focusTimer b :: rest) :
    ic.fireTimer =
      if ic.selectedBody = some b then
        { ic with
          pendingTimers := rest
          state := InteractionState.FOCUS
          notifications := ic.notifications ++
            [Notification.stateChange InteractionState.FOCUS (some b.id),
             Notification.bodySelect b.id] }
      else { ic with pendingTimers := rest } := by
  unfold InteractionController.fireTimer
  rw [hpt]

/-- Claim C1: after focus(A) immediately followed by focus(B), the second
request is accepted (state TRANSITION, selection B); A's completion timer is
a no-op (the selection-identity guard fails) leaving state, selection,
notifications, perturbation and camera untouched; B's timer then commits
FOCUS with B selected; and no state-change or body-selected notification
emitted after the focus(B) call reports A as focused. -/
theorem superseded_focus_guard (ic : InteractionController) (a b : Body)
    (hid : a.id ≠ b.id) (hpt : ic.pendingTimers = []) :
    (((ic.focusOnBody a).focusOnBody b).state = InteractionState.TRANSITION ∧
      ((ic.focusOnBody a).focusOnBody b).selectedBody = some b) ∧
    (((ic.focusOnBody a).focusOnBody b).fireTimer.state =
        ((ic.focusOnBody a).focusOnBody b).state ∧
      ((ic.focusOnBody a).focusOnBody b).fireTimer.selectedBody =
        ((ic.focusOnBody a).focusOnBody b).selectedBody ∧
      ((ic.focusOnBody a).focusOnBody b).fireTimer.notifications =
        ((ic.focusOnBody a).focusOnBody b).notifications ∧
      ((ic.focusOnBody a).focusOnBody b).fireTimer.perturbLog =
        ((ic.focusOnBody a).focusOnBody b).perturbLog ∧
      ((ic.focusOnBody a).focusOnBody b).fireTimer.cameraController =
        ((ic.focusOnBody a).focusOnBody b).cameraController) ∧
    (((ic.focusOnBody a).focusOnBody b).fireTimer.fireTimer.state = InteractionState.FOCUS ∧
      ((ic.focusOnBody a).focusOnBody b).fireTimer.fireTimer.selectedBody = some b) ∧
    (∀ n ∈ ((ic.focusOnBody a).focusOnBody b).fireTimer.fireTimer.notifications.drop
        (ic.focusOnBody a).notifications.length,
      n ≠ Notification.stateChange InteractionState.FOCUS (some a.id) ∧
      n ≠ Notification.bodySelect a.id) := by
  have hid' : b.id ≠ a.id := fun h => hid h.symm
  have hpt2 : ((ic.focusOnBody a).focusOnBody b).pendingTimers =
      PendingTimer.focusTimer a :: [PendingTimer.focusTimer b] := by
    simp [InteractionController.focusOnBody, hpt]
  have hba : ¬ (((ic.focusOnBody a).focusOnBody b).selectedBody = some a) := by
    intro hcon
    have hb : some b = some a := hcon
    exact hid' (congrArg Body.id (Option.some.inj hb))
  have h3 : ((ic.focusOnBody a).focusOnBody b).fireTimer =
      { (ic.focusOnBody a).focusOnBody b with pendingTimers := [PendingTimer.focusTimer b] } := by
    rw [fireTimer_focus_cons _ a [PendingTimer.focusTimer b] hpt2, if_neg hba]
  have h4 : ((ic.focusOnBody a).focusOnBody b).fireTimer.fireTimer =
      { (ic.focusOnBody a).focusOnBody b with
        pendingTimers := []
        state := InteractionState.FOCUS
        notifications := ((ic.focusOnBody a).focusOnBody b).notifications ++
          [Notification.stateChange InteractionState.FOCUS (some b.id),
           Notification.bodySelect b.id] } := by
    rw [h3, fireTimer_focus_cons _ b [] rfl,
      if_pos (show ({ (ic.focusOnBody a).focusOnBody b with
        pendingTimers := [PendingTimer.focusTimer b] } :
        InteractionController).selectedBody = some b from rfl)]
  refine ⟨⟨rfl, rfl⟩, ?_, ?_, ?_⟩
  · rw [h3]
    exact ⟨rfl, rfl, rfl, rfl, rfl⟩
  · rw [h4]
    exact ⟨rfl, rfl⟩
  · intro n hn
    rw [h4] at hn
    have hnot : ({ (ic.focusOnBody a).focusOnBody b with
        pendingTimers := []
        state := InteractionState.FOCUS
        notifications := ((ic.focusOnBody a).focusOnBody b).notifications ++
          [Notification.stateChange InteractionState.FOCUS (some b.id),
           Notification.bodySelect b.id] } : InteractionController).notifications =
        (ic.focusOnBody a).notifications ++
          [Notification.stateChange InteractionState.TRANSITION (some b.id),
           Notification.stateChange InteractionState.FOCUS (some b.id),
           Notification.bodySelect b.id] := by
      simp [InteractionController.focusOnBody]
    rw [hnot, List.drop_left] at hn
    simp only [List.mem_cons, List.not_mem_nil, or_false] at hn
    rcases hn with rfl | rfl | rfl
    · exact ⟨by simp, by simp⟩
    · exact ⟨by simp [hid'], by simp⟩
    · exact ⟨by simp, by simp [hid']⟩

/-- Witness for C1: the concrete double-focus from the constructor state —
the committed state is FOCUS with bodyB selected. -/
theorem superseded_focus_guard_witness :
    ((InteractionController.init.focusOnBody bodyA).focusOnBody
        bodyB).fireTimer.fireTimer.state = InteractionState.FOCUS ∧
    ((InteractionController.init.focusOnBody bodyA).focusOnBody
        bodyB).fireTimer.fireTimer.selectedBody = some bodyB :=
  (superseded_focus_guard InteractionController.init bodyA bodyB (by decide) rfl).2.2.1

/-- Helper: `returnToGlobal` realises the full return sequence whenever a
body is selected and no timer is pending. -/
theorem returnToGlobal_effects (ic : InteractionController) (b : Body)
    (hsel : ic.selectedBody = some b) (hpt : ic.pendingTimers = []) :
    returnSequenceFrom ic ic.returnToGlobal b := by
  unfold returnSequenceFrom InteractionController.returnToGlobal
  rw [hsel]
  refine ⟨?_, rfl, rfl, rfl, ?_, ?_, ?_⟩
  · simp [InteractionController.perturbStrengthOf, List.lookup]
  · simp [InteractionController.fireTimer, hpt]
  · simp [InteractionController.fireTimer, hpt]
  · simp [InteractionController.fireTimer, hpt]

/-- Claim C4 (counterexample): a right-click while in the TRANSITION state is
completely ignored — the contextmenu handler calls `returnToGlobal` only from
FOCUS — so no perturbation disable, no notification and no state change
happen, contradicting the claim that a secondary pointer action in
Transitioning triggers the return sequence. -/
theorem contextmenu_transition_ignored :
    ((InteractionController.init.focusOnBody bodyA).state = InteractionState.TRANSITION) ∧
    ((InteractionController.init.focusOnBody bodyA).onContextMenu =
      InteractionController.init.focusOnBody bodyA) :=
  ⟨rfl, rfl⟩

/-- Helper: field values of `returnToGlobal` when a body is selected — note
the selection itself is left in place (only the 1.2 s timer clears it). -/
theorem returnToGlobal_fields (ic : InteractionController) (b : Body)
    (hsel : ic.selectedBody = some b) :
    ic.returnToGlobal.state = InteractionState.TRANSITION ∧
    ic.returnToGlobal.selectedBody = some b ∧
    ic.returnToGlobal.perturbLog = (b.id, (0 : ℚ)) :: ic.perturbLog ∧
    ic.returnToGlobal.notifications = ic.notifications ++
      [Notification.stateChange InteractionState.TRANSITION none] ∧
    ic.returnToGlobal.cameraController = (ic.cameraController.returnToOverview).1 ∧
    ic.returnToGlobal.pendingTimers = ic.pendingTimers ++ [PendingTimer.returnTimer] := by
  unfold InteractionController.returnToGlobal
  rw [hsel]
  exact ⟨rfl, rfl, rfl, rfl, rfl, rfl⟩

/-- Helper: firing a timer whose head is the return timer pops it and
unconditionally commits GLOBAL with the selection cleared. -/
theorem fireTimer_return_cons (ic : InteractionController) (rest : List PendingTimer)
    (hpt : ic.pendingTimers = PendingTimer.returnTimer :: rest) :
    ic.fireTimer =
      { ic with
        pendingTimers := rest
        state := InteractionState.GLOBAL
        selectedBody := none
        notifications := ic.notifications ++
          [Notification.stateChange InteractionState.GLOBAL none] } := by
  unfold InteractionController.fireTimer
  rw [hpt]

/-- Claim C4 (amended): with a body selected, the secondary pointer action
(right-click) triggers `returnToGlobal` from FOCUS only and is a complete
no-op in TRANSITION, while the cancel key (Escape) triggers it from FOCUS
and from TRANSITION.  From the quiescent Focused state (its focus timer has
already fired), the sequence is as the spec describes: perturbation
disabled, TRANSITION committed with a state-change notification,
returnToOverview delegated, and the 1.2 s timer then commits GLOBAL with the
selection cleared and a final state-change notification.  From the
Transitioning state, whose focus timer is still pending, `returnToGlobal`
starts the same way (perturbation disabled, TRANSITION notification,
delegation) but does not clear the selection, so the pending focus timer's
identity guard still passes: it spuriously commits FOCUS and emits
`onStateChange(FOCUS, body)` and `onBodySelect(body)` before the return
timer finally commits GLOBAL with the selection cleared and the final
state-change notification. -/
theorem secondary_and_cancel_key_return (ic : InteractionController) (b : Body)
    (hsel : ic.selectedBody = some b) :
    (ic.state = InteractionState.FOCUS → ic.pendingTimers = [] →
      returnSequenceFrom ic ic.onContextMenu b ∧
      returnSequenceFrom ic ic.onKeyDownEscape b) ∧
    (ic.state = InteractionState.TRANSITION → ic.onContextMenu = ic) ∧
    (ic.state = InteractionState.TRANSITION →
      ic.pendingTimers = [PendingTimer.focusTimer b] →
      (ic.onKeyDownEscape.perturbStrengthOf b.id = 0 ∧
        ic.onKeyDownEscape.state = InteractionState.TRANSITION ∧
        ic.onKeyDownEscape.notifications = ic.notifications ++
          [Notification.stateChange InteractionState.TRANSITION none] ∧
        ic.onKeyDownEscape.cameraController = (ic.cameraController.returnToOverview).1 ∧
        ic.onKeyDownEscape.pendingTimers =
          [PendingTimer.focusTimer b, PendingTimer.returnTimer]) ∧
      (ic.onKeyDownEscape.fireTimer.state = InteractionState.FOCUS ∧
        ic.onKeyDownEscape.fireTimer.notifications = ic.notifications ++
          [Notification.stateChange InteractionState.TRANSITION none,
           Notification.stateChange InteractionState.FOCUS (some b.id),
           Notification.bodySelect b.id]) ∧
      (ic.onKeyDownEscape.fireTimer.fireTimer.state = InteractionState.GLOBAL ∧
        ic.onKeyDownEscape.fireTimer.fireTimer.selectedBody = none ∧
        ic.onKeyDownEscape.fireTimer.fireTimer.notifications = ic.notifications ++
          [Notification.stateChange InteractionState.TRANSITION none,
           Notification.stateChange InteractionState.FOCUS (some b.id),
           Notification.bodySelect b.id,
           Notification.stateChange InteractionState.GLOBAL none])) := by
  refine ⟨?_, ?_, ?_⟩
  · intro hf hpt
    constructor
    · unfold InteractionController.onContextMenu
      rw [if_pos hf]
      exact returnToGlobal_effects ic b hsel hpt
    · unfold InteractionController.onKeyDownEscape
      rw [if_pos (Or.inl hf)]
      exact returnToGlobal_effects ic b hsel hpt
  · intro ht
    unfold InteractionController.onContextMenu
    rw [if_neg (by simp [ht])]
  · intro ht hpt
    have hesc : ic.onKeyDownEscape = ic.returnToGlobal := by
      unfold InteractionController.onKeyDownEscape
      rw [if_pos (Or.inr ht)]
    have hf := returnToGlobal_fields ic b hsel
    have hpt1 : ic.returnToGlobal.pendingTimers =
        PendingTimer.focusTimer b :: [PendingTimer.returnTimer] := by
      rw [hf.2.2.2.2.2, hpt]
      rfl
    have h2 : ic.returnToGlobal.fireTimer =
        { ic.returnToGlobal with
          pendingTimers := [PendingTimer.returnTimer]
          state := InteractionState.FOCUS
          notifications := ic.returnToGlobal.notifications ++
            [Notification.stateChange InteractionState.FOCUS (some b.id),
             Notification.bodySelect b.id] } := by
      rw [fireTimer_focus_cons _ b [PendingTimer.returnTimer] hpt1, if_pos hf.2.1]
    have h3 : ic.returnToGlobal.fireTimer.fireTimer =
        { ic.returnToGlobal with
          pendingTimers := []
          state := InteractionState.GLOBAL
          selectedBody := none
          notifications := (ic.returnToGlobal.notifications ++
            [Notification.stateChange InteractionState.FOCUS (some b.id),
             Notification.bodySelect b.id]) ++
            [Notification.stateChange InteractionState.GLOBAL none] } := by
      rw [h2, fireTimer_return_cons _ [] rfl]
    refine ⟨⟨?_, ?_, ?_, ?_, ?_⟩, ⟨?_, ?_⟩, ?_, ?_, ?_⟩
    · rw [hesc]
      unfold InteractionController.perturbStrengthOf
      rw [hf.2.2.1]
      simp [List.lookup]
    · rw [hesc]
      exact hf.1
    · rw [hesc]
      exact hf.2.2.2.1
    · rw [hesc]
      exact hf.2.2.2.2.1
    · rw [hesc]
      exact hpt1
    · rw [hesc, h2]
    · rw [hesc, h2]
      show ic.returnToGlobal.notifications ++ _ = _
      rw [hf.2.2.2.1]
      simp
    · rw [hesc, h3]
    · rw [hesc, h3]
    · rw [hesc, h3]
      show (ic.returnToGlobal.notifications ++ _) ++ _ = _
      rw [hf.2.2.2.1]
      simp

/-- Witness for C4 (amended): the quiescent focused controller exercises the
clean sequence for both right-click and Escape; the reachable transitioning
state `init.focusOnBody bodyA` (pending focus timer for bodyA) exercises the
right-click no-op and the spurious FOCUS commit followed by the GLOBAL
commit on Escape. -/
theorem secondary_and_cancel_key_return_witness :
    returnSequenceFrom icFocused icFocused.onContextMenu bodyA ∧
    returnSequenceFrom icFocused icFocused.onKeyDownEscape bodyA ∧
    ((InteractionController.init.focusOnBody bodyA).onContextMenu =
      InteractionController.init.focusOnBody bodyA) ∧
    ((InteractionController.init.focusOnBody bodyA).onKeyDownEscape.fireTimer.state =
      InteractionState.FOCUS) ∧
    ((InteractionController.init.focusOnBody
        bodyA).onKeyDownEscape.fireTimer.fireTimer.state = InteractionState.GLOBAL) ∧
    ((InteractionController.init.focusOnBody
        bodyA).onKeyDownEscape.fireTimer.fireTimer.selectedBody = none) := by
  have h1 := (secondary_and_cancel_key_return icFocused bodyA rfl).1 rfl rfl
  have h2 := secondary_and_cancel_key_return
    (InteractionController.init.focusOnBody bodyA) bodyA rfl
  exact ⟨h1.1, h1.2, h2.2.1 rfl, (h2.2.2 rfl rfl).2.1.1,
    (h2.2.2 rfl rfl).2.2.1, (h2.2.2 rfl rfl).2.2.2.1⟩

end SolarDemo
